import Mathlib

/-!
Verification of `src/main.py` (volga-script): a weather-polling script that
fetches readings from an HTTP API, stores them, and exports recent readings
to a spreadsheet.  The Python source is embedded shallowly: its float
arithmetic is modelled by exact rational arithmetic (`ℚ`), fallible steps by
`Option`/`Except`, and the process-level loops by pure step functions.
-/

namespace VolgaScript

/-- Python's `%` on numbers with a positive modulus: the result has the sign
of the divisor, `x % y = x - y * ⌊x / y⌋`. -/
def pymod (x y : ℚ) : ℚ := x - y * ⌊x / y⌋

/-- Python's `int(...)` applied to a number: truncation toward zero. -/
def pyInt (q : ℚ) : ℤ := if 0 ≤ q then ⌊q⌋ else ⌈q⌉

/-- Python's integer floor division `a // b`. -/
def pyFloorDiv (a b : ℤ) : ℤ := Int.fdiv a b

/-- Python list indexing `l[i]`: a non-negative index counts from the front,
a negative index counts from the back, and an out-of-range index is an
`IndexError`, modelled as `none`. -/
def pyListGet {α : Type} (l : List α) (i : ℤ) : Option α :=
  if 0 ≤ i then l[i.toNat]?
  else if (-i).toNat ≤ l.length then l[l.length - (-i).toNat]? else none

/-- `src/main.py` line 65: the fixed list of 8 compass labels, North first,
proceeding clockwise (Russian initials: С = N, СВ = NE, В = E, ЮВ = SE,
Ю = S, ЮЗ = SW, З = W, СЗ = NW). -/
def wind_direction_map : List String := ["С", "СВ", "В", "ЮВ", "Ю", "ЮЗ", "З", "СЗ"]

/-- `src/main.py` lines 66-68, the index expression
`int((current["winddirection"] + 22.5) % 360) // 45`. -/
def windIndex (degrees : ℚ) : ℤ := pyFloorDiv (pyInt (pymod (degrees + 22.5) 360)) 45

/-- `src/main.py` lines 66-68: `wind_direction_map[int((d + 22.5) % 360) // 45]`. -/
def windDirection (degrees : ℚ) : Option String :=
  pyListGet wind_direction_map (windIndex degrees)

theorem pymod_nonneg (x : ℚ) {y : ℚ} (hy : 0 < y) : 0 ≤ pymod x y := by
  have h := Int.fract_nonneg (x / y)
  have hrepr : pymod x y = y * Int.fract (x / y) := by
    unfold pymod Int.fract
    field_simp
  rw [hrepr]
  positivity

theorem pymod_lt (x : ℚ) {y : ℚ} (hy : 0 < y) : pymod x y < y := by
  have h := Int.fract_lt_one (x / y)
  have hrepr : pymod x y = y * Int.fract (x / y) := by
    unfold pymod Int.fract
    field_simp
  rw [hrepr]
  calc y * Int.fract (x / y) < y * 1 := by exact (mul_lt_mul_left hy).2 h
    _ = y := mul_one y

theorem pymod_eq_self {x y : ℚ} (h0 : 0 ≤ x) (h1 : x < y) : pymod x y = x := by
  have hy : 0 < y := lt_of_le_of_lt h0 h1
  have hfl : ⌊x / y⌋ = 0 := by
    rw [Int.floor_eq_zero_iff]
    exact Set.mem_Ico.2 ⟨div_nonneg h0 hy.le, (div_lt_one hy).2 h1⟩
  simp [pymod, hfl]

/-- The index computed on lines 66-68 always lies in `{0, ..., 7}`. -/
theorem windIndex_bounds (d : ℚ) : 0 ≤ windIndex d ∧ windIndex d < 8 := by
  have hm0 : 0 ≤ pymod (d + 22.5) 360 := pymod_nonneg _ (by norm_num)
  have hm1 : pymod (d + 22.5) 360 < 360 := pymod_lt _ (by norm_num)
  have hfl0 : 0 ≤ ⌊pymod (d + 22.5) 360⌋ := Int.floor_nonneg.2 hm0
  have hfl1 : ⌊pymod (d + 22.5) 360⌋ < 360 := by
    exact Int.floor_lt.2 (by exact_mod_cast hm1)
  unfold windIndex pyFloorDiv pyInt
  rw [if_pos hm0, Int.fdiv_eq_ediv _ (by norm_num)]
  omega

/-- For a non-negative argument the code's `int(...) // 45` agrees with the
real-number formula `⌊m / 45⌋`. -/
theorem floor_div_45 {m : ℚ} (hm : 0 ≤ m) : ⌊m / 45⌋ = Int.fdiv ⌊m⌋ 45 := by
  rw [Int.fdiv_eq_ediv _ (by norm_num), ← Int.natCast_floor_eq_floor hm,
    ← Int.natCast_floor_eq_floor (div_nonneg hm (by norm_num : (0:ℚ) ≤ 45)),
    show (45 : ℚ) = ((45 : ℕ) : ℚ) by norm_num, Nat.floor_div_nat m 45]
  omega

/-- Evaluation helper: once the wrapped value `(d + 22.5) % 360` and its floor
are known, the label is a plain list lookup. -/
theorem windDirection_eval {d m : ℚ} {n : ℤ} (hm : pymod (d + 22.5) 360 = m)
    (h0 : 0 ≤ m) (hfl : ⌊m⌋ = n) :
    windDirection d = pyListGet wind_direction_map (Int.fdiv n 45) := by
  unfold windDirection windIndex pyFloorDiv pyInt
  rw [hm, if_pos h0, hfl]

theorem windDirection_at_0 : windDirection 0 = some "С" := by
  rw [windDirection_eval (m := 22.5) (n := 22)
    (by rw [show (0:ℚ) + 22.5 = 22.5 by norm_num]
        exact pymod_eq_self (by norm_num) (by norm_num))
    (by norm_num) (by rw [Int.floor_eq_iff] <;> norm_num)]
  decide

theorem windDirection_at_90 : windDirection 90 = some "В" := by
  rw [windDirection_eval (m := 112.5) (n := 112)
    (by rw [show (90:ℚ) + 22.5 = 112.5 by norm_num]
        exact pymod_eq_self (by norm_num) (by norm_num))
    (by norm_num) (by rw [Int.floor_eq_iff] <;> norm_num)]
  decide

theorem windDirection_at_359 : windDirection 359 = some "С" := by
  have hm : pymod ((359 : ℚ) + 22.5) 360 = 21.5 := by
    unfold pymod
    have hfl : ⌊((359 : ℚ) + 22.5) / 360⌋ = 1 := by
      rw [Int.floor_eq_iff] <;> norm_num
    rw [hfl]
    norm_num
  rw [windDirection_eval (m := 21.5) (n := 21) hm (by norm_num)
    (by rw [Int.floor_eq_iff] <;> norm_num)]
  decide

/-- C10: for every real wind-direction degree value, including negative
values and values of 360 or more, the computed index
`int((degrees + 22.5) % 360) // 45` lies in 0..7, so indexing into the
8-label list never goes out of bounds (the lookup always succeeds). -/
theorem windIndex_always_in_bounds (d : ℚ) :
    0 ≤ windIndex d ∧ windIndex d < 8 ∧ (windDirection d).isSome = true := by
  obtain ⟨h0, h1⟩ := windIndex_bounds d
  refine ⟨h0, h1, ?_⟩
  unfold windDirection pyListGet
  rw [if_pos h0]
  have hlt : (windIndex d).toNat < wind_direction_map.length := by
    have : wind_direction_map.length = 8 := by decide
    omega
  simp [List.getElem?_eq_getElem hlt]

/-- C1: for every wind-direction degree input in [0, 360), the code's index
`int((d + 22.5) % 360) // 45` equals the spec formula
`⌊((d + 22.5) mod 360) / 45⌋`, the selected label is one of the 8 entries of
the fixed list ordered from North clockwise, and concretely 0 maps to "С"
(North), 90 to "В" (East), and 359 to "С" (North). -/
theorem windDirection_spec (d : ℚ) (h0 : 0 ≤ d) (h1 : d < 360) :
    windIndex d = ⌊pymod (d + 22.5) 360 / 45⌋
    ∧ (∃ lbl, windDirection d = some lbl ∧ lbl ∈ wind_direction_map)
    ∧ wind_direction_map.length = 8
    ∧ windDirection 0 = some "С"
    ∧ windDirection 90 = some "В"
    ∧ windDirection 359 = some "С" := by
  have hm0 : 0 ≤ pymod (d + 22.5) 360 := pymod_nonneg _ (by norm_num)
  refine ⟨?_, ?_, by decide, windDirection_at_0, windDirection_at_90, windDirection_at_359⟩
  · rw [floor_div_45 hm0]
    unfold windIndex pyFloorDiv pyInt
    rw [if_pos hm0]
  · obtain ⟨hi0, hi1⟩ := windIndex_bounds d
    have hlt : (windIndex d).toNat < wind_direction_map.length := by
      have : wind_direction_map.length = 8 := by decide
      omega
    refine ⟨wind_direction_map[(windIndex d).toNat], ?_, List.getElem_mem hlt⟩
    unfold windDirection pyListGet
    rw [if_pos hi0]
    simp [List.getElem?_eq_getElem hlt]

/-- Witness for C1 at the concrete input 90. -/
theorem windDirection_spec_witness :
    (0 : ℚ) ≤ 90 ∧ (90 : ℚ) < 360 ∧
      (windIndex 90 = ⌊pymod ((90 : ℚ) + 22.5) 360 / 45⌋
      ∧ (∃ lbl, windDirection 90 = some lbl ∧ lbl ∈ wind_direction_map)
      ∧ wind_direction_map.length = 8
      ∧ windDirection 0 = some "С"
      ∧ windDirection 90 = some "В"
      ∧ windDirection 359 = some "С") :=
  ⟨by norm_num, by norm_num, windDirection_spec 90 (by norm_num) (by norm_num)⟩

/-- Lines 16-17: the fixed latitude constant. -/
def SKOLTECH_LATITUDE : ℚ := 55.69782222

/-- Lines 16-17: the fixed longitude constant. -/
def SKOLTECH_LONGITUDE : ℚ := 37.36156389

/-- Values appearing in the `params` dict on lines 48-56. -/
inductive ParamValue : Type where
  | num : ℚ → ParamValue
  | pbool : Bool → ParamValue
  | str : String → ParamValue
deriving DecidableEq

/-- Lines 52-55, the `hourly` query value: the implicit concatenation of the
two adjacent Python string literals. -/
def hourlyParam : String :=
  "temperature_2m,relativehumidity_2m,windspeed_10m," ++
    "winddirection_10m,pressure_msl,precipitation"

/-- Lines 48-56: the `params` dict of the single outbound GET, in source
order. -/
def requestParams : List (String × ParamValue) :=
  [("latitude", ParamValue.num SKOLTECH_LATITUDE),
   ("longitude", ParamValue.num SKOLTECH_LONGITUDE),
   ("current_weather", ParamValue.pbool true),
   ("hourly", ParamValue.str hourlyParam)]

/-- Splitting at commas, to count the metric names of the comma-joined
`hourly` value. -/
def commaSplit (s : String) : List String :=
  (s.data.splitOn ',').map List.asString

/-- A JSON value as decoded by `response.json()` on line 60. -/
inductive Json : Type where
  | num : ℚ → Json
  | str : String → Json
  | jbool : Bool → Json
  | arr : List Json → Json
  | obj : List (String × Json) → Json
  | null : Json

/-- Python `d[key]` on a decoded JSON object; `none` models the `KeyError`
on a missing key (or a `TypeError` when the value is not an object). -/
def Json.getKey : Json → String → Option Json
  | .obj kvs, k => kvs.lookup k
  | _, _ => none

/-- A JSON number, as consumed by the source's arithmetic. -/
def Json.asNum : Json → Option ℚ
  | .num q => some q
  | _ => none

/-- A JSON array, as consumed by the source's `hourly[...][0]` indexing. -/
def Json.asArr : Json → Option (List Json)
  | .arr l => some l
  | _ => none

/-- The outcome of the HTTP GET on line 59: the status code and, when the
request and the JSON decoding succeed, the decoded body.  `body = none`
models a network error or an undecodable body. -/
structure HttpResponse : Type where
  status : ℕ
  body : Option Json

/-- The dictionary returned by `get_weather_data` on lines 70-80. -/
structure FetchedReading : Type where
  temperature : ℚ
  wind_speed : ℚ
  wind_direction : String
  pressure : ℚ
  precipitation_type : String
  precipitation_amount : ℚ
deriving DecidableEq

/-- Lines 61-80 of `get_weather_data`: extraction of the fields from the
decoded JSON body.  Each failed lookup, non-numeric field or empty hourly
series models the exception Python would raise there (KeyError, IndexError
or TypeError). -/
def fetchFromJson (data : Json) : Option FetchedReading :=
  (data.getKey "current_weather").bind fun current =>
  (data.getKey "hourly").bind fun hourly =>
  ((current.getKey "winddirection").bind Json.asNum).bind fun winddirection =>
  (windDirection winddirection).bind fun wind_direction =>
  ((current.getKey "temperature").bind Json.asNum).bind fun temperature =>
  ((current.getKey "windspeed").bind Json.asNum).bind fun windspeed =>
  (((hourly.getKey "pressure_msl").bind Json.asArr).bind List.head?).bind fun pressure0 =>
  pressure0.asNum.bind fun pressure =>
  (((hourly.getKey "precipitation").bind Json.asArr).bind List.head?).bind fun prec0 =>
  prec0.asNum.bind fun prec =>
  some { temperature := temperature
         wind_speed := windspeed
         wind_direction := wind_direction
         pressure := pressure * 0.75006
         precipitation_type := if prec > 0 then "rain" else "none"
         precipitation_amount := prec }

/-- Function `get_weather_data` (lines 43-80).  A network failure or an
undecodable body surfaces as an error; otherwise the fields are extracted
from the JSON body.  The HTTP status code is never inspected by the source.
Python's distinct exception types all surface to the caller identically
(they are caught as a bare `Exception` in `weather_loop`), so each is
modelled as a single error value. -/
def get_weather_data (resp : HttpResponse) : Except String FetchedReading :=
  match resp.body with
  | none => Except.error "aiohttp client error"
  | some data =>
    match fetchFromJson data with
    | some r => Except.ok r
    | none => Except.error "missing expected JSON field"

/-- The value `hourly["pressure_msl"][0]` as the source reads it from a
response. -/
def hourlyPressure0 (resp : HttpResponse) : Option ℚ :=
  resp.body.bind fun data =>
    (data.getKey "hourly").bind fun hourly =>
      (((hourly.getKey "pressure_msl").bind Json.asArr).bind List.head?).bind Json.asNum

theorem fetch_precip_decomp {data : Json} {r : FetchedReading}
    (h : fetchFromJson data = some r) :
    r.precipitation_type = (if r.precipitation_amount > 0 then "rain" else "none") := by
  simp only [fetchFromJson, Option.bind_eq_some, Option.some.injEq] at h
  obtain ⟨c, h1, ho, h2, wdeg, h3, wl, h4, t, h5, ws, h6, p0, h7, p, h8, q0, h9, q, h10, hr⟩ := h
  subst hr
  by_cases hq : q > 0 <;> simp [hq]

theorem fetch_pressure_decomp {data : Json} {r : FetchedReading}
    (h : fetchFromJson data = some r) :
    ∃ hourly p, data.getKey "hourly" = some hourly
      ∧ ((((hourly.getKey "pressure_msl").bind Json.asArr).bind List.head?).bind Json.asNum
          = some p)
      ∧ r.pressure = p * 0.75006 := by
  simp only [fetchFromJson, Option.bind_eq_some, Option.some.injEq] at h
  obtain ⟨c, h1, ho, h2, wdeg, h3, wl, h4, t, h5, ws, h6, p0, h7, p, h8, q0, h9, q, h10, hr⟩ := h
  obtain ⟨arr, ⟨pj, hpj, harr⟩, hhead⟩ := h7
  refine ⟨ho, p, h2, ?_, ?_⟩
  · simp only [hpj, Option.some_bind, harr, hhead, h8]
  · rw [← hr]

/-- A well-formed response body holding every field the source reads, with a
strictly positive precipitation value. -/
def sampleJson : Json :=
  Json.obj
    [("current_weather", Json.obj
        [("temperature", Json.num 21.5),
         ("windspeed", Json.num 4),
         ("winddirection", Json.num 90)]),
     ("hourly", Json.obj
        [("pressure_msl", Json.arr [Json.num 1000]),
         ("precipitation", Json.arr [Json.num 2.5])])]

/-- The reading the source builds from `sampleJson`. -/
def sampleReading : FetchedReading :=
  { temperature := 21.5
    wind_speed := 4
    wind_direction := "В"
    pressure := 750.06
    precipitation_type := "rain"
    precipitation_amount := 2.5 }

theorem get_weather_data_sample (s : ℕ) :
    get_weather_data ⟨s, some sampleJson⟩ = Except.ok sampleReading := by
  have hp : (1000 : ℚ) * 0.75006 = 750.06 := by norm_num
  have hq : (2.5 : ℚ) > 0 := by norm_num
  simp [get_weather_data, fetchFromJson, sampleJson, Json.getKey, Json.asNum, Json.asArr,
    windDirection_at_90, hp, hq, sampleReading, List.lookup]

/-- A well-formed response body with pressure 1013.25 hPa and zero
precipitation. -/
def json1013 : Json :=
  Json.obj
    [("current_weather", Json.obj
        [("temperature", Json.num 20),
         ("windspeed", Json.num 3),
         ("winddirection", Json.num 90)]),
     ("hourly", Json.obj
        [("pressure_msl", Json.arr [Json.num 1013.25]),
         ("precipitation", Json.arr [Json.num 0])])]

/-- The reading the source builds from `json1013`. -/
def reading1013 : FetchedReading :=
  { temperature := 20
    wind_speed := 3
    wind_direction := "В"
    pressure := 759.998295
    precipitation_type := "none"
    precipitation_amount := 0 }

theorem get_weather_data_1013 (s : ℕ) :
    get_weather_data ⟨s, some json1013⟩ = Except.ok reading1013 := by
  have hp : (1013.25 : ℚ) * 0.75006 = 759.998295 := by norm_num
  have hq : ¬ ((0 : ℚ) > 0) := by norm_num
  simp [get_weather_data, fetchFromJson, json1013, Json.getKey, Json.asNum, Json.asArr,
    windDirection_at_90, hp, hq, reading1013, List.lookup]

theorem hourlyPressure0_1013 (s : ℕ) :
    hourlyPressure0 ⟨s, some json1013⟩ = some 1013.25 := by
  simp [hourlyPressure0, json1013, Json.getKey, Json.asNum, Json.asArr, List.lookup]

/-- C3: every reading produced by a successful fetch has
`precipitation_type = "rain"` exactly when `precipitation_amount > 0`, and
`"none"` otherwise (lines 76-79). -/
theorem precipitation_rain_iff_positive (resp : HttpResponse) (r : FetchedReading)
    (h : get_weather_data resp = Except.ok r) :
    (r.precipitation_type = "rain" ↔ 0 < r.precipitation_amount)
    ∧ (¬ 0 < r.precipitation_amount → r.precipitation_type = "none") := by
  have hr : r.precipitation_type
      = (if r.precipitation_amount > 0 then "rain" else "none") := by
    cases hb : resp.body with
    | none => simp [get_weather_data, hb] at h
    | some data =>
      cases hf : fetchFromJson data with
      | none => simp [get_weather_data, hb, hf] at h
      | some r2 =>
        simp only [get_weather_data, hb, hf, Except.ok.injEq] at h
        rw [← h]
        exact fetch_precip_decomp hf
  rw [hr]
  by_cases hq : r.precipitation_amount > 0 <;> simp [hq]

/-- Witness for C3: a fetch with precipitation 2.5 yields "rain", one with
precipitation 0 yields "none". -/
theorem precipitation_rain_iff_positive_witness :
    ((sampleReading.precipitation_type = "rain" ↔ 0 < sampleReading.precipitation_amount)
      ∧ (¬ 0 < sampleReading.precipitation_amount → sampleReading.precipitation_type = "none"))
    ∧ ((reading1013.precipitation_type = "rain" ↔ 0 < reading1013.precipitation_amount)
      ∧ (¬ 0 < reading1013.precipitation_amount → reading1013.precipitation_type = "none")) :=
  ⟨precipitation_rain_iff_positive ⟨200, some sampleJson⟩ sampleReading
      (get_weather_data_sample 200),
   precipitation_rain_iff_positive ⟨200, some json1013⟩ reading1013
      (get_weather_data_1013 200)⟩

/-- C9 counterexample: for the hourly pressure 1013.25 hPa the stored value
is 759.998295 mmHg, which is not about 760.24 (it is not even within 0.01 of
it). -/
theorem pressure_example_counterexample :
    get_weather_data ⟨200, some json1013⟩ = Except.ok reading1013
    ∧ reading1013.pressure = 759.998295
    ∧ ¬ (760.23 ≤ reading1013.pressure ∧ reading1013.pressure < 760.25) :=
  ⟨get_weather_data_1013 200, by norm_num [reading1013], by norm_num [reading1013]⟩

/-- C9 amended: the stored pressure is exactly the hourly hectopascal value
times 0.75006 (= 75006/100000), line 75. -/
theorem pressure_conversion (resp : HttpResponse) (r : FetchedReading) (p : ℚ)
    (h : get_weather_data resp = Except.ok r) (hp : hourlyPressure0 resp = some p) :
    r.pressure = p * 0.75006 ∧ (0.75006 : ℚ) = 75006 / 100000 := by
  refine ⟨?_, by norm_num⟩
  cases hb : resp.body with
  | none => simp [get_weather_data, hb] at h
  | some data =>
    cases hf : fetchFromJson data with
    | none => simp [get_weather_data, hb, hf] at h
    | some r2 =>
      simp only [get_weather_data, hb, hf, Except.ok.injEq] at h
      obtain ⟨hourly, p2, hh, hchain, hpr⟩ := fetch_pressure_decomp hf
      unfold hourlyPressure0 at hp
      rw [hb, Option.some_bind, hh, Option.some_bind, hchain] at hp
      have hpp : p2 = p := by simpa using hp
      rw [← h, hpr, hpp]

/-- Witness for C9 at the concrete response carrying 1013.25 hPa. -/
theorem pressure_conversion_witness :
    reading1013.pressure = (1013.25 : ℚ) * 0.75006 ∧ (0.75006 : ℚ) = 75006 / 100000 :=
  pressure_conversion ⟨200, some json1013⟩ reading1013 1013.25
    (get_weather_data_1013 200) (hourlyPressure0_1013 200)

/-- C8 counterexample: a response with the non-2xx status 500 whose JSON
body is well-formed does not surface as an error — the fetch succeeds,
because the source never inspects the status. -/
theorem non2xx_success_counterexample :
    (HttpResponse.mk 500 (some sampleJson)).status = 500
    ∧ get_weather_data (HttpResponse.mk 500 (some sampleJson)) = Except.ok sampleReading :=
  ⟨rfl, get_weather_data_sample 500⟩

/-- C8 amended: a network error (no decoded body) or a missing expected
JSON field surfaces as a single error to the caller; the HTTP status is
never inspected, and the fetcher performs no retry (one response in, one
result out). -/
theorem fetch_error_surfacing (resp : HttpResponse) (s : ℕ) :
    (resp.body = none → ∃ e, get_weather_data resp = Except.error e)
    ∧ (∀ data, resp.body = some data → fetchFromJson data = none →
        ∃ e, get_weather_data resp = Except.error e)
    ∧ get_weather_data ⟨s, resp.body⟩ = get_weather_data resp := by
  refine ⟨?_, ?_, rfl⟩
  · intro hb
    refine ⟨"aiohttp client error", ?_⟩
    unfold get_weather_data
    rw [hb]
  · intro data hb hf
    exact ⟨"missing expected JSON field", by simp [get_weather_data, hb, hf]⟩

/-- Witness for C8: a network failure at status 404 surfaces as an error,
and replacing the status by 200 changes nothing. -/
theorem fetch_error_surfacing_witness :
    (∃ e, get_weather_data ⟨404, none⟩ = Except.error e)
    ∧ get_weather_data ⟨200, (HttpResponse.mk 404 none).body⟩ = get_weather_data ⟨404, none⟩ :=
  ⟨(fetch_error_surfacing ⟨404, none⟩ 200).1 rfl,
   (fetch_error_surfacing ⟨404, none⟩ 200).2.2⟩

/-- C5 counterexample: the fixed comma-joined `hourly` value lists 6 metric
names, not 5. -/
theorem hourly_metric_count_counterexample :
    commaSplit hourlyParam =
      ["temperature_2m", "relativehumidity_2m", "windspeed_10m",
       "winddirection_10m", "pressure_msl", "precipitation"]
    ∧ (commaSplit hourlyParam).length = 6
    ∧ (commaSplit hourlyParam).length ≠ 5 := by
  refine ⟨by decide, by decide, by decide⟩

/-- C5 amended: the single outbound GET carries exactly the query keys
latitude, longitude (the fixed constants), current_weather = true, and
hourly = the fixed comma-joined list of 6 metric names. -/
theorem request_params_spec :
    requestParams.map Prod.fst = ["latitude", "longitude", "current_weather", "hourly"]
    ∧ requestParams.lookup "latitude" = some (ParamValue.num SKOLTECH_LATITUDE)
    ∧ requestParams.lookup "longitude" = some (ParamValue.num SKOLTECH_LONGITUDE)
    ∧ requestParams.lookup "current_weather" = some (ParamValue.pbool true)
    ∧ requestParams.lookup "hourly" = some (ParamValue.str hourlyParam)
    ∧ (commaSplit hourlyParam).length = 6 :=
  ⟨rfl, rfl, rfl, rfl, rfl, by decide⟩

/-- A stored row of the `weather_data` table (lines 26-37).  The
auto-assigned `id` and timestamp are explicit fields; a timestamp is an
abstract comparable instant. -/
structure Reading : Type where
  id : ℕ
  timestamp : ℕ
  temperature : ℚ
  wind_speed : ℚ
  wind_direction : String
  pressure : ℚ
  precipitation_type : String
  precipitation_amount : ℚ
deriving DecidableEq

/-- The timestamp-descending order of the export query (lines 97-99,
`order_by(WeatherData.timestamp.desc())`). -/
def tsDesc (a b : Reading) : Prop := b.timestamp ≤ a.timestamp

instance : DecidableRel tsDesc := fun a b => Nat.decLe b.timestamp a.timestamp

instance : IsTotal Reading tsDesc :=
  ⟨fun a b => (Nat.le_total b.timestamp a.timestamp).elim Or.inl Or.inr⟩

instance : IsTrans Reading tsDesc :=
  ⟨fun _ _ _ hab hbc => Nat.le_trans hbc hab⟩

/-- Lines 96-100: the query backing export,
`session.query(WeatherData).order_by(timestamp.desc()).limit(n).all()`,
over the store contents; the source calls it with `n = 10`. -/
def mostRecent (n : ℕ) (store : List Reading) : List Reading :=
  (List.insertionSort tsDesc store).take n

theorem mostRecent_length (n : ℕ) (store : List Reading) :
    (mostRecent n store).length = min n store.length := by
  rw [mostRecent, List.length_take, (List.perm_insertionSort tsDesc store).length_eq]

/-- C4: `mostRecent n` returns `min n (size of store)` readings, sorted by
timestamp descending (newest first); on an empty store it returns the empty
sequence, and whenever the store holds at most `n` rows it returns exactly
the stored rows (a permutation of the store), newest first. -/
theorem mostRecent_spec (n : ℕ) (store : List Reading) :
    (mostRecent n store).length = min n store.length
    ∧ List.Sorted tsDesc (mostRecent n store)
    ∧ mostRecent n [] = []
    ∧ (store.length ≤ n → (mostRecent n store).Perm store) := by
  refine ⟨mostRecent_length n store, ?_, ?_, ?_⟩
  · exact List.Pairwise.sublist (List.take_sublist n _)
      (List.sorted_insertionSort tsDesc store)
  · simp [mostRecent]
  · intro h
    rw [mostRecent, List.take_of_length_le
      (by rw [(List.perm_insertionSort tsDesc store).length_eq]; exact h)]
    exact List.perm_insertionSort tsDesc store

/-- A store of 3 rows (insertion order, timestamps 1, 3, 2). -/
def store3 : List Reading :=
  [⟨1, 1, 0, 0, "С", 0, "none", 0⟩,
   ⟨2, 3, 0, 0, "В", 0, "none", 0⟩,
   ⟨3, 2, 0, 0, "Ю", 0, "rain", 1⟩]

/-- Witness for C4: on a store of 3 rows and n = 10, the query returns
exactly those 3 rows, newest first. -/
theorem mostRecent_spec_witness :
    store3.length ≤ 10
    ∧ (mostRecent 10 store3).length = min 10 store3.length
    ∧ List.Sorted tsDesc (mostRecent 10 store3)
    ∧ (mostRecent 10 store3).Perm store3 :=
  ⟨by decide, (mostRecent_spec 10 store3).1, (mostRecent_spec 10 store3).2.1,
   (mostRecent_spec 10 store3).2.2.2 (by decide)⟩

/-- One spreadsheet cell. -/
inductive Cell : Type where
  | num : ℚ → Cell
  | str : String → Cell
  | time : ℕ → Cell
deriving DecidableEq

/-- Lines 103-111: the ordered record (Python dict) built from one stored
reading. -/
def readingRecord (d : Reading) : List (String × Cell) :=
  [("Timestamp", Cell.time d.timestamp),
   ("Temperature (°C)", Cell.num d.temperature),
   ("Wind Speed (m/s)", Cell.num d.wind_speed),
   ("Wind Direction", Cell.str d.wind_direction),
   ("Pressure (mmHg)", Cell.num d.pressure),
   ("Precipitation Type", Cell.str d.precipitation_type),
   ("Precipitation Amount (mm)", Cell.num d.precipitation_amount)]

/-- The 7 column labels of lines 104-110, in order. -/
def exportHeaders : List String :=
  ["Timestamp", "Temperature (°C)", "Wind Speed (m/s)", "Wind Direction",
   "Pressure (mmHg)", "Precipitation Type", "Precipitation Amount (mm)"]

/-- A pandas DataFrame, reduced to what the export writes: the column
labels and the data rows. -/
structure DataFrame : Type where
  columns : List String
  rows : List (List Cell)

/-- Models `pandas.DataFrame(records)` (line 102) for records that, as
built on lines 103-111, all share one key list: the columns are the first
record's keys in order, and an empty record list yields a DataFrame with no
columns at all (pandas infers columns from the data, and there is none to
infer from). -/
def buildDataFrame (records : List (List (String × Cell))) : DataFrame :=
  { columns := match records with | [] => [] | r :: _ => r.map Prod.fst
    rows := records.map fun r => r.map Prod.snd }

/-- Models `DataFrame.to_excel(filename, index=False)` (line 115): the
written sheet is one header row holding the column labels — provided the
DataFrame has at least one column — followed by the data rows; a DataFrame
with no columns yields an entirely empty sheet. -/
def toExcelRows (df : DataFrame) : List (List Cell) :=
  (if df.columns.isEmpty then [] else [df.columns.map Cell.str]) ++ df.rows

/-- A local `datetime.now()` instant, to the second. -/
structure PyDateTime : Type where
  year : ℕ
  month : ℕ
  day : ℕ
  hour : ℕ
  minute : ℕ
  second : ℕ

/-- Zero-padding to width 2, as the `%m %d %H %M %S` directives produce. -/
def pad2 (n : ℕ) : String := if n < 10 then "0" ++ toString n else toString n

/-- Zero-padding to width 4, as `%Y` produces for the years at issue. -/
def pad4 (n : ℕ) : String :=
  if n < 10 then "000" ++ toString n
  else if n < 100 then "00" ++ toString n
  else if n < 1000 then "0" ++ toString n
  else toString n

/-- Line 114: `datetime.now().strftime("%Y%m%d_%H%M%S")`. -/
def strftimeStamp (t : PyDateTime) : String :=
  pad4 t.year ++ pad2 t.month ++ pad2 t.day ++ "_"
    ++ pad2 t.hour ++ pad2 t.minute ++ pad2 t.second

/-- What one call of `export_to_excel` (lines 93-116) produces: the name of
the file it writes, the sheet it writes there, the console lines it prints,
and its Python return value — the body has no `return` statement, so the
function returns `None`. -/
structure ExportOutcome : Type where
  filename : String
  sheet : List (List Cell)
  printed : List String
  returned : Option String

/-- Function `export_to_excel` (lines 93-116), as a function of the instant
`datetime.now()` returns and of the store contents. -/
def export_to_excel (now : PyDateTime) (store : List Reading) : ExportOutcome :=
  let data := mostRecent 10 store
  let df := buildDataFrame (data.map readingRecord)
  let filename := "weather_data_" ++ strftimeStamp now ++ ".xlsx"
  { filename := filename
    sheet := toExcelRows df
    printed := ["Данные экспортированы в файл: " ++ filename]
    returned := none }

/-- A fixed concrete export instant. -/
def t0 : PyDateTime := ⟨2024, 1, 2, 3, 4, 5⟩

/-- C2 counterexample: exporting an empty store writes an entirely empty
sheet — in particular not the single header row of the 7 column labels the
claim asserts. -/
theorem export_empty_no_header_counterexample :
    (export_to_excel t0 []).sheet = []
    ∧ (export_to_excel t0 []).sheet ≠ [exportHeaders.map Cell.str] := by
  have hsheet : (export_to_excel t0 []).sheet = [] := rfl
  refine ⟨hsheet, ?_⟩
  rw [hsheet]
  simp

/-- C2 amended: exporting an empty store still produces a file, but its
sheet is empty — no header row and no data rows — because the DataFrame
built from zero records has no columns; the 7 labels head the sheet exactly
when at least one reading is exported. -/
theorem export_empty_amended (t : PyDateTime) :
    (export_to_excel t []).sheet = []
    ∧ exportHeaders.length = 7
    ∧ ∀ d store, (export_to_excel t (d :: store)).sheet.head?
        = some (exportHeaders.map Cell.str) := by
  refine ⟨rfl, rfl, ?_⟩
  intro d store
  have hlen : (mostRecent 10 (d :: store)).length = min 10 (d :: store).length :=
    mostRecent_length 10 (d :: store)
  have hne : mostRecent 10 (d :: store) ≠ [] := by
    intro hnil
    rw [hnil] at hlen
    simp at hlen
    omega
  obtain ⟨x, xs, hx⟩ := List.exists_cons_of_ne_nil hne
  simp only [export_to_excel, hx, toExcelRows, buildDataFrame, List.map_cons]
  simp [readingRecord, exportHeaders]

/-- C6 counterexample: `export_to_excel` returns `None`, not the filename
it wrote — the printed confirmation comes from inside the exporter, not
from the command loop printing a returned value. -/
theorem export_returns_none_counterexample :
    (export_to_excel t0 []).returned = none
    ∧ (export_to_excel t0 []).returned ≠ some (export_to_excel t0 []).filename := by
  have hret : (export_to_excel t0 []).returned = none := rfl
  refine ⟨hret, ?_⟩
  rw [hret]
  simp

/-- C6 amended: export writes the file
`weather_data_<YYYYMMDD_HHMMSS>.xlsx` from the local time at invocation and
itself prints the confirmation containing that filename, but returns `None`
to its caller, so the command loop has no returned filename to print. -/
theorem export_filename_spec (t : PyDateTime) (store : List Reading) :
    (export_to_excel t store).filename = "weather_data_" ++ strftimeStamp t ++ ".xlsx"
    ∧ (export_to_excel t store).returned = none
    ∧ (export_to_excel t store).printed
        = ["Данные экспортированы в файл: " ++ (export_to_excel t store).filename]
    ∧ (export_to_excel ⟨2024, 5, 7, 15, 30, 9⟩ []).filename
        = "weather_data_20240507_153009.xlsx" :=
  ⟨rfl, rfl, rfl, by decide⟩

/-- Python `str.lower()` restricted to ASCII case mapping; the letters
compared against "export" and "exit" are all ASCII, where the two case
mappings agree. -/
def pyLower (s : String) : String := String.mk (s.data.map Char.toLower)

/-- The three ways one input line can be dispatched on lines 157-163. -/
inductive Command : Type where
  | exportCmd : Command
  | exitCmd : Command
  | unknown : Command
deriving DecidableEq

/-- Lines 157-163: the input line is compared via `command.lower()`, with
no trimming of surrounding whitespace. -/
def dispatch (command : String) : Command :=
  if pyLower command = "export" then Command.exportCmd
  else if pyLower command = "exit" then Command.exitCmd
  else Command.unknown

/-- One iteration of `handle_user_input` on one input line: whether
`os._exit(0)` terminates the process, whether the exporter runs, and
whether the unknown-command message is printed. -/
structure StepOutcome : Type where
  terminated : Bool
  ranExporter : Bool
  printedUnknown : Bool
deriving DecidableEq

/-- The effect of one loop iteration of `handle_user_input` (lines
155-163). -/
def handle_user_input_step (command : String) : StepOutcome :=
  match dispatch command with
  | Command.exportCmd => ⟨false, true, false⟩
  | Command.exitCmd => ⟨true, false, false⟩
  | Command.unknown => ⟨false, false, true⟩

/-- Python `str.strip()` — whitespace trimming.  The source never calls it;
this definition only states the claim's "trimmed input" reading. -/
def pyStrip (s : String) : String :=
  String.mk (((s.data.dropWhile Char.isWhitespace).reverse.dropWhile
    Char.isWhitespace).reverse)

/-- Modelled from the claim's words, for comparison with the code: dispatch
by case-insensitive match on the TRIMMED input line. -/
def dispatchTrimmedSpec (command : String) : Command := dispatch (pyStrip command)

/-- C7 counterexample: on the input " export" (leading space) the claim's
trimmed dispatch triggers the exporter, but the code compares the untrimmed
line and prints the unknown-command message instead. -/
theorem dispatch_not_trimmed_counterexample :
    dispatchTrimmedSpec " export" = Command.exportCmd
    ∧ dispatch " export" = Command.unknown
    ∧ (handle_user_input_step " export").ranExporter = false
    ∧ (handle_user_input_step " export").printedUnknown = true := by
  refine ⟨by decide, by decide, by decide, by decide⟩

/-- C7 amended: dispatch is a case-insensitive match on the input line
exactly as read (no trimming): a line lowering to "export" runs the
exporter, one lowering to "exit" terminates the process, and anything else
— including "quit" and whitespace-padded commands — prints the
unknown-command message and does not terminate. -/
theorem dispatch_case_insensitive (s : String) :
    (dispatch s = Command.exportCmd ↔ pyLower s = "export")
    ∧ (dispatch s = Command.exitCmd ↔ pyLower s = "exit")
    ∧ handle_user_input_step "EXPORT" = handle_user_input_step "export"
    ∧ (handle_user_input_step "EXPORT").ranExporter = true
    ∧ (handle_user_input_step "EXPORT").terminated = false
    ∧ (handle_user_input_step "ExIt").terminated = true
    ∧ (handle_user_input_step "quit").terminated = false
    ∧ (handle_user_input_step "quit").printedUnknown = true := by
  refine ⟨?_, ?_, by decide, by decide, by decide, by decide, by decide, by decide⟩
  · by_cases h1 : pyLower s = "export"
    · simp [dispatch, h1]
    · by_cases h2 : pyLower s = "exit" <;> simp [dispatch, h1, h2]
  · by_cases h1 : pyLower s = "export"
    · simp [dispatch, h1]
    · by_cases h2 : pyLower s = "exit" <;> simp [dispatch, h1, h2]

end VolgaScript
